import Mathlib

/-!
Shallow embedding of `dioxus-v04-optional-hooks` (src/src/lib.rs):
a stale-while-revalidate cache cell (`FutureHook`) over an external
future-execution engine, with an outdated flag and policy-controlled reads.
-/

/-- Rust `Result<T, E>`. -/
inductive RsResult (T E : Type) where
  | ok (v : T)
  | err (e : E)
deriving DecidableEq, Repr

/-- Raw execution state of the external Future Engine (dioxus
`UseFutureState`): `pending` holds no value, `complete`/`reloading`
carry the last completed `Result` (the engine's `value()` is `Some`
exactly in those two states). -/
inductive UseFutureState (T E : Type) where
  | pending
  | complete (r : RsResult T E)
  | reloading (r : RsResult T E)
deriving DecidableEq, Repr

/-- The engine's `value()`: the last completed result, if any. -/
def UseFutureState.value : UseFutureState T E → Option (RsResult T E)
  | .pending => none
  | .complete r => some r
  | .reloading r => some r

/-- Modelled from the spec: the external Future Engine's restart operation
begins a new execution, keeping the last completed value while in flight,
so the raw state transitions toward `Reloading`. -/
def UseFutureState.engineRestart : UseFutureState T E → UseFutureState T E
  | .pending => .pending
  | .complete r => .reloading r
  | .reloading r => .reloading r

/-- Modelled from the spec: the producer finishing with result `r` while an
execution is in flight; a completed state with no execution in flight is
left unchanged. -/
def UseFutureState.engineComplete (r : RsResult T E) :
    UseFutureState T E → UseFutureState T E
  | .pending => .complete r
  | .reloading _ => .complete r
  | .complete r0 => .complete r0

/-- The five-valued logical state (`FutureState` in the source). -/
inductive FutureState where
  | empty
  | ready
  | error
  | outdated
  | reloading
deriving DecidableEq, Repr

/-- Startup policy (`StartupGuard` in the source). -/
inductive StartupGuard where
  | disable
  | enable
deriving DecidableEq, Repr

/-- The cache cell (`FutureHook` in the source): the engine's raw state as
observed through the `future` handle, plus the core-owned outdated flag
(`outdated_marker`). -/
structure FutureHook (T E : Type) where
  future : UseFutureState T E
  outdated_marker : Bool
deriving DecidableEq, Repr

namespace FutureHook

/-- `FutureHook::new`: initializes the outdated marker to
`startup_guard == StartupGuard::Enable`; the engine cell starts pending. -/
def new (T E : Type) (startup_guard : StartupGuard) : FutureHook T E :=
  { future := .pending
    outdated_marker := decide (startup_guard = StartupGuard.enable) }

/-- `FutureHook::is_outdated`. -/
def is_outdated (h : FutureHook T E) : Bool :=
  h.outdated_marker

/-- `FutureHook::check_state`: map the raw state to a provisional logical
state, then override `ready`/`error` to `outdated` when the flag is set. -/
def check_state (h : FutureHook T E) : FutureState :=
  let val : FutureState :=
    match h.future with
    | .pending => .empty
    | .complete (.ok _) => .ready
    | .complete (.err _) => .error
    | .reloading _ => .reloading
  if (val = FutureState.ready ∨ val = FutureState.error) ∧ h.is_outdated = true
  then FutureState.outdated
  else val

/-- `FutureHook::read`, with each Rust `unwrap` made explicit: the outer
`Option` is `none` exactly when an `unwrap` would panic, and `some o`
means the function returns `o`. -/
def readChecked (h : FutureHook T E) (allow_cache_while_reloading : Bool) :
    Option (Option T) :=
  if h.is_outdated then some none
  else if !allow_cache_while_reloading then
    match h.check_state with
    | .empty | .reloading | .error | .outdated => some none
    | .ready =>
      match h.future.value with
      | none => none
      | some r =>
        match r with
        | .err _ => none
        | .ok v => some (some v)
  else
    match h.check_state with
    | .empty | .error => some none
    | .ready | .reloading =>
      match h.future.value with
      | none => none
      | some r =>
        match r with
        | .err _ => some none
        | .ok v => some (some v)
    | .outdated =>
      match h.future with
      | .complete (.ok v) => some (some v)
      | _ => some none

/-- `FutureHook::read`: the returned value (panic collapsed to `none`;
`readChecked_total` shows the panic case never occurs). -/
def read (h : FutureHook T E) (allow_cache_while_reloading : Bool) : Option T :=
  (h.readChecked allow_cache_while_reloading).join

/-- `FutureHook::read_clone`: `self.read(...).cloned()`; cloning is the
identity in the model. -/
def read_clone (h : FutureHook T E) (allow_cache_while_reloading : Bool) :
    Option T :=
  (h.read allow_cache_while_reloading).map (fun v => v)

/-- `FutureHook::read_unchecked`: the engine's raw value. -/
def read_unchecked (h : FutureHook T E) : Option (RsResult T E) :=
  h.future.value

/-- `FutureHook::restart`: no-op when the logical state is `empty` or
`reloading`; otherwise clears the flag and restarts the engine. -/
def restart (h : FutureHook T E) : FutureHook T E :=
  if h.check_state = FutureState.empty ∨ h.check_state = FutureState.reloading
  then h
  else { future := h.future.engineRestart, outdated_marker := false }

/-- `FutureHook::fetch`: restart only if outdated. -/
def fetch (h : FutureHook T E) : FutureHook T E :=
  if h.is_outdated then h.restart else h

/-- `FutureHook::set_outdated`. -/
def set_outdated (h : FutureHook T E) : FutureHook T E :=
  { h with outdated_marker := true }

end FutureHook

/-- One operation on the cache cell: a core call, or an engine-side
transition (completion of the producer, or an engine-initiated restart on
dependency change). -/
inductive Op (T E : Type) where
  | read (allow : Bool)
  | read_clone (allow : Bool)
  | read_unchecked
  | check_state
  | is_outdated
  | set_outdated
  | restart
  | fetch
  | engine_complete (r : RsResult T E)
  | engine_restart

/-- Effect of one operation on the cache state: reads and queries are
pure; engine events touch only the raw state. -/
def stepOp (h : FutureHook T E) : Op T E → FutureHook T E
  | .read _ => h
  | .read_clone _ => h
  | .read_unchecked => h
  | .check_state => h
  | .is_outdated => h
  | .set_outdated => h.set_outdated
  | .restart => h.restart
  | .fetch => h.fetch
  | .engine_complete r => { h with future := h.future.engineComplete r }
  | .engine_restart => { h with future := h.future.engineRestart }

/-- Run a sequence of operations. -/
def runOps (h : FutureHook T E) : List (Op T E) → FutureHook T E
  | [] => h
  | op :: rest => runOps (stepOp h op) rest

/-- Whether an operation, taken in state `h`, is a `restart`/`fetch` call
that actually performs a restart (reaches the flag-clearing branch). -/
def performsRestart (h : FutureHook T E) : Op T E → Bool
  | .restart =>
    !(decide (h.check_state = FutureState.empty ∨
              h.check_state = FutureState.reloading))
  | .fetch =>
    h.is_outdated &&
    !(decide (h.check_state = FutureState.empty ∨
              h.check_state = FutureState.reloading))
  | _ => false

/-- No operation in the sequence, run from `h`, actually performs a
restart. -/
def noRestartPerformed (h : FutureHook T E) : List (Op T E) → Bool
  | [] => true
  | op :: rest => !performsRestart h op && noRestartPerformed (stepOp h op) rest

/-! ### Theorems about the claims -/

/-- C2: `check_state` maps `Pending → Empty`, `Complete(Ok) → Ready`,
`Complete(Err) → Error`, `Reloading → Reloading`, then overrides `Ready`
and `Error` (but never `Empty` or `Reloading`) to `Outdated` exactly when
the outdated flag is set. -/
theorem check_state_table (T E : Type) (h : FutureHook T E) :
    h.check_state =
      match h.future, h.outdated_marker with
      | .pending, _ => FutureState.empty
      | .complete (.ok _), false => FutureState.ready
      | .complete (.ok _), true => FutureState.outdated
      | .complete (.err _), false => FutureState.error
      | .complete (.err _), true => FutureState.outdated
      | .reloading _, _ => FutureState.reloading := by
  obtain ⟨raw, flag⟩ := h
  cases raw with
  | pending => cases flag <;> rfl
  | complete r => cases r <;> cases flag <;> rfl
  | reloading r => cases flag <;> rfl

/-- C3: `read(false)` returns a value if and only if the derived logical
state is exactly `Ready`. -/
theorem read_strict_some_iff_ready (T E : Type) (h : FutureHook T E) :
    (∃ v, h.read false = some v) ↔ h.check_state = FutureState.ready := by
  obtain ⟨raw, flag⟩ := h
  cases raw with
  | pending =>
    cases flag <;>
      simp [FutureHook.read, FutureHook.readChecked, FutureHook.check_state,
        FutureHook.is_outdated, UseFutureState.value]
  | complete r =>
    cases r <;> cases flag <;>
      simp [FutureHook.read, FutureHook.readChecked, FutureHook.check_state,
        FutureHook.is_outdated, UseFutureState.value]
  | reloading r =>
    cases flag <;>
      simp [FutureHook.read, FutureHook.readChecked, FutureHook.check_state,
        FutureHook.is_outdated, UseFutureState.value]

/-- C8: whenever the outdated flag is set, `read` returns `None` under
both policies — the early guard at the top of `read` hides the cached
value, making the `Outdated` arm of the permissive branch unreachable. -/
theorem read_none_of_outdated (T E : Type) (h : FutureHook T E) (b : Bool)
    (hout : h.is_outdated = true) : h.read b = none := by
  simp [FutureHook.read, FutureHook.readChecked, hout]

/-- Witness for `read_none_of_outdated` at a state holding `Ok 3`. -/
theorem read_none_of_outdated_witness :
    FutureHook.read (⟨.complete (.ok 3), true⟩ : FutureHook Nat Nat) false = none :=
  read_none_of_outdated Nat Nat ⟨.complete (.ok 3), true⟩ false rfl

/-- C1 (code behavior at the failing input): with the outdated flag set
and the raw state `Complete(Ok 5)`, `read(true)` returns `None` — the
early outdated guard fires before the permissive `Outdated` bypass arm
can return the stale payload. -/
theorem read_true_outdated_returns_none :
    FutureHook.read (⟨.complete (.ok 5), true⟩ : FutureHook Nat Nat) true = none := by
  decide

/-- C5: `fetch` invokes `restart` exactly when the outdated flag is set;
when the flag is clear it changes nothing. -/
theorem fetch_spec (T E : Type) (h : FutureHook T E) :
    (h.is_outdated = true → h.fetch = h.restart) ∧
    (h.is_outdated = false → h.fetch = h) := by
  constructor <;> intro hf <;> simp [FutureHook.fetch, hf]

/-- Witness for `fetch_spec`: both conjuncts at concrete states. -/
theorem fetch_spec_witness :
    FutureHook.fetch (⟨.complete (.ok 2), true⟩ : FutureHook Nat Nat) =
      FutureHook.restart (⟨.complete (.ok 2), true⟩ : FutureHook Nat Nat) ∧
    FutureHook.fetch (⟨.pending, false⟩ : FutureHook Nat Nat) = ⟨.pending, false⟩ :=
  ⟨(fetch_spec Nat Nat ⟨.complete (.ok 2), true⟩).1 rfl,
   (fetch_spec Nat Nat ⟨.pending, false⟩).2 rfl⟩

/-- C4: `restart` leaves the state unchanged when the logical state is
`Empty` or `Reloading`; otherwise it clears the outdated flag and requests
a new engine execution, moving the raw state to `Reloading`. -/
theorem restart_spec (T E : Type) (h : FutureHook T E) :
    ((h.check_state = FutureState.empty ∨ h.check_state = FutureState.reloading) →
      h.restart = h) ∧
    (¬(h.check_state = FutureState.empty ∨ h.check_state = FutureState.reloading) →
      h.restart.is_outdated = false ∧
      h.restart.future = h.future.engineRestart ∧
      ∃ r, h.restart.future = UseFutureState.reloading r) := by
  obtain ⟨raw, flag⟩ := h
  cases raw with
  | pending =>
    cases flag <;> exact ⟨fun _ => rfl, fun hc => absurd (Or.inl rfl) hc⟩
  | complete r =>
    cases r <;> cases flag <;>
      exact ⟨fun hc => hc.elim (fun h1 => FutureState.noConfusion h1)
          (fun h1 => FutureState.noConfusion h1),
        fun _ => ⟨rfl, rfl, ⟨_, rfl⟩⟩⟩
  | reloading r =>
    cases flag <;> exact ⟨fun _ => rfl, fun hc => absurd (Or.inr rfl) hc⟩

/-- Witness for `restart_spec`: both branches at concrete states. -/
theorem restart_spec_witness :
    FutureHook.restart (⟨.pending, true⟩ : FutureHook Nat Nat) = ⟨.pending, true⟩ ∧
    (FutureHook.restart (⟨.complete (.ok 2), true⟩ : FutureHook Nat Nat)).is_outdated
      = false :=
  ⟨(restart_spec Nat Nat ⟨.pending, true⟩).1 (by decide),
   ((restart_spec Nat Nat ⟨.complete (.ok 2), true⟩).2 (by decide)).1⟩

/-- C7: `read` is total — neither `unwrap` inside it can panic, because
whenever `check_state` reports `Ready` or `Reloading` the engine holds a
completed result. -/
theorem readChecked_total (T E : Type) (h : FutureHook T E) (b : Bool) :
    (∃ o, h.readChecked b = some o) ∧
    ((h.check_state = FutureState.ready ∨ h.check_state = FutureState.reloading) →
      ∃ r, h.future.value = some r) := by
  obtain ⟨raw, flag⟩ := h
  cases raw with
  | pending =>
    refine ⟨⟨none, ?_⟩, fun hc => ?_⟩
    · cases flag <;> cases b <;> rfl
    · exact hc.elim (fun h1 => FutureState.noConfusion h1)
        (fun h1 => FutureState.noConfusion h1)
  | complete r =>
    cases r with
    | ok v =>
      cases flag with
      | false => cases b <;> exact ⟨⟨some v, rfl⟩, fun _ => ⟨_, rfl⟩⟩
      | true => cases b <;> exact ⟨⟨none, rfl⟩, fun _ => ⟨_, rfl⟩⟩
    | err e =>
      cases flag <;> cases b <;> exact ⟨⟨none, rfl⟩, fun _ => ⟨_, rfl⟩⟩
  | reloading r =>
    cases r with
    | ok v =>
      cases flag with
      | false =>
        cases b with
        | false => exact ⟨⟨none, rfl⟩, fun _ => ⟨_, rfl⟩⟩
        | true => exact ⟨⟨some v, rfl⟩, fun _ => ⟨_, rfl⟩⟩
      | true => cases b <;> exact ⟨⟨none, rfl⟩, fun _ => ⟨_, rfl⟩⟩
    | err e =>
      cases flag <;> cases b <;> exact ⟨⟨none, rfl⟩, fun _ => ⟨_, rfl⟩⟩

/-- Witness for `readChecked_total` at a reloading-with-Ok state. -/
theorem readChecked_total_witness :
    (∃ o, FutureHook.readChecked
        (⟨.reloading (.ok 1), false⟩ : FutureHook Nat Nat) true = some o) ∧
    (∃ r, (UseFutureState.reloading (RsResult.ok 1) : UseFutureState Nat Nat).value
        = some r) :=
  ⟨(readChecked_total Nat Nat ⟨.reloading (.ok 1), false⟩ true).1,
   (readChecked_total Nat Nat ⟨.reloading (.ok 1), false⟩ true).2 (Or.inr rfl)⟩

/-- C9: when the raw state is `Pending` or `Reloading`, `restart` (and
therefore `fetch`) changes nothing — in particular a set outdated flag
stays set. -/
theorem restart_fetch_noop_in_flight (T E : Type) (h : FutureHook T E)
    (hraw : h.future = UseFutureState.pending ∨
            ∃ r, h.future = UseFutureState.reloading r) :
    h.restart = h ∧ h.fetch = h := by
  obtain ⟨raw, flag⟩ := h
  rcases hraw with hp | ⟨r, hr⟩
  · cases hp
    cases flag <;> exact ⟨rfl, rfl⟩
  · cases hr
    cases flag <;> exact ⟨rfl, rfl⟩

/-- Witness for `restart_fetch_noop_in_flight` at a stale reloading state. -/
theorem restart_fetch_noop_in_flight_witness :
    FutureHook.restart (⟨.reloading (.ok 1), true⟩ : FutureHook Nat Nat)
      = ⟨.reloading (.ok 1), true⟩ ∧
    FutureHook.fetch (⟨.reloading (.ok 1), true⟩ : FutureHook Nat Nat)
      = ⟨.reloading (.ok 1), true⟩ :=
  restart_fetch_noop_in_flight Nat Nat ⟨.reloading (.ok 1), true⟩ (Or.inr ⟨_, rfl⟩)

/-- C10: whenever `read` returns `Some v`, the engine's stored result is
`Ok v`, and `read_clone` equals `read` followed by cloning the value. -/
theorem read_some_implies_ok (T E : Type) (h : FutureHook T E) (b : Bool) (v : T)
    (hv : h.read b = some v) :
    h.future.value = some (RsResult.ok v) ∧
    h.read_clone b = (h.read b).map (fun x => x) := by
  obtain ⟨raw, flag⟩ := h
  refine ⟨?_, rfl⟩
  cases flag with
  | true => exact Option.noConfusion hv
  | false =>
    cases b with
    | false =>
      cases raw with
      | pending => exact Option.noConfusion hv
      | complete r =>
        cases r with
        | ok w => injection hv with h1; subst h1; rfl
        | err e => exact Option.noConfusion hv
      | reloading r => exact Option.noConfusion hv
    | true =>
      cases raw with
      | pending => exact Option.noConfusion hv
      | complete r =>
        cases r with
        | ok w => injection hv with h1; subst h1; rfl
        | err e => exact Option.noConfusion hv
      | reloading r =>
        cases r with
        | ok w => injection hv with h1; subst h1; rfl
        | err e => exact Option.noConfusion hv

/-- Witness for `read_some_implies_ok` at a fresh `Ok 7` state. -/
theorem read_some_implies_ok_witness :
    (UseFutureState.complete (RsResult.ok 7) : UseFutureState Nat Nat).value
      = some (RsResult.ok 7) ∧
    FutureHook.read_clone (⟨.complete (.ok 7), false⟩ : FutureHook Nat Nat) false
      = (FutureHook.read (⟨.complete (.ok 7), false⟩ : FutureHook Nat Nat) false).map
          (fun x => x) :=
  read_some_implies_ok Nat Nat ⟨.complete (.ok 7), false⟩ false 7 rfl

/-- Helper: a single operation that does not actually perform a restart
preserves a set outdated flag. -/
theorem outdated_preserved_step (T E : Type) (h : FutureHook T E) (op : Op T E)
    (hout : h.outdated_marker = true) (hnp : performsRestart h op = false) :
    (stepOp h op).outdated_marker = true := by
  cases op with
  | read b => exact hout
  | read_clone b => exact hout
  | read_unchecked => exact hout
  | check_state => exact hout
  | is_outdated => exact hout
  | set_outdated => rfl
  | restart =>
    have hc : h.check_state = FutureState.empty ∨
        h.check_state = FutureState.reloading := by
      simpa only [performsRestart, Bool.not_eq_false', decide_eq_true_eq] using hnp
    show (FutureHook.restart h).outdated_marker = true
    unfold FutureHook.restart
    rw [if_pos hc]
    exact hout
  | fetch =>
    have hc : h.check_state = FutureState.empty ∨
        h.check_state = FutureState.reloading := by
      simpa only [performsRestart, FutureHook.is_outdated, hout, Bool.true_and,
        Bool.not_eq_false', decide_eq_true_eq] using hnp
    show (FutureHook.fetch h).outdated_marker = true
    unfold FutureHook.fetch
    rw [if_pos (show FutureHook.is_outdated h = true from hout)]
    unfold FutureHook.restart
    rw [if_pos hc]
    exact hout
  | engine_complete r => exact hout
  | engine_restart => exact hout

/-- Helper: a sequence with no actually-performed restart preserves a set
outdated flag. -/
theorem outdated_preserved_run (T E : Type) (h : FutureHook T E)
    (ops : List (Op T E)) (hout : h.outdated_marker = true)
    (hnp : noRestartPerformed h ops = true) :
    (runOps h ops).outdated_marker = true := by
  induction ops generalizing h with
  | nil => exact hout
  | cons op rest ih =>
    simp only [noRestartPerformed, Bool.and_eq_true, Bool.not_eq_true'] at hnp
    exact ih (stepOp h op) (outdated_preserved_step T E h op hout hnp.1) hnp.2

/-- C6: construction sets the outdated flag exactly when the startup
policy is `Enable`, and after construction with `Enable` the flag stays
set under every operation sequence in which no `restart`/`fetch` call
actually performs a restart. -/
theorem new_enable_outdated_persists (T E : Type) (g : StartupGuard)
    (ops : List (Op T E))
    (hnp : noRestartPerformed (FutureHook.new T E StartupGuard.enable) ops = true) :
    ((FutureHook.new T E g).outdated_marker = true ↔ g = StartupGuard.enable) ∧
    (runOps (FutureHook.new T E StartupGuard.enable) ops).outdated_marker = true := by
  refine ⟨?_, outdated_preserved_run T E _ ops rfl hnp⟩
  cases g with
  | disable => simp [FutureHook.new]
  | enable => simp [FutureHook.new]

/-- Witness for `new_enable_outdated_persists`: with `Disable` the flag is
clear, and with `Enable` it survives a completion, an invalidation, a read
and an in-flight fetch. -/
theorem new_enable_outdated_persists_witness :
    ((FutureHook.new Nat Nat StartupGuard.disable).outdated_marker = true ↔
      StartupGuard.disable = StartupGuard.enable) ∧
    (runOps (FutureHook.new Nat Nat StartupGuard.enable)
      [Op.fetch, Op.engine_complete (RsResult.ok 5), Op.set_outdated,
       Op.read true]).outdated_marker = true :=
  new_enable_outdated_persists Nat Nat StartupGuard.disable
    [Op.fetch, Op.engine_complete (RsResult.ok 5), Op.set_outdated, Op.read true]
    (by decide)
